import Mathlib

/-!
Verification development for the tufsegm_api repository: a shallow
embedding, in Lean 4, of the disk-quota-guarded copy/unzip/setup pipeline,
the subprocess helpers and the API endpoint functions, together with
theorems settling the specification claims about them.

Conventions of the embedding:
- Python exceptions become an inductive `PyExc`; a Python function that can
  raise returns `Except PyExc α`.
- Filesystem paths are lists of path components (`List String`); the
  contents of a directory tree are the list of relative paths that exist
  under it.
- Byte counts are `Nat`; GB quantities coming from float arithmetic are
  modelled as exact rationals `ℚ`.
- Subprocess executions are abstracted by their observable outcome
  (completed with a return code / produced output / timed out), passed to
  the embedded function as an argument.
-/

/-- Python exception values raised by this codebase.  `httpException e`
models `aiohttp.web.HTTPException(reason=e)` wrapping an original
exception `e`; the others model the ad hoc and builtin exception types
appearing in the source (`DiskSpaceExceeded` and `SubprocessError` from
`tufsegm_api/utils.py`, plus builtins). -/
inductive PyExc where
  | valueError
  | keyError (key : String)
  | typeError (msg : String)
  | nameError (name : String)
  | osError
  | fileNotFoundError
  | diskSpaceExceeded
  | subprocessError
  | httpException (cause : PyExc)
  deriving Repr, DecidableEq

/-! ## copy_remote and delete_new_contents (tufsegm_api/utils.py)

`copy_remote(frompath, topath)` walks `sorted(frompath.rglob("[!.]*"))`
when the source is a directory: subdirectories are created with `mkdir`,
files are copied after a prospective-usage check
`get_disk_usage() + file_size >= limit_bytes`.  When the source is a
single file the code at utils.py line 112 reads `file_size =
f.stat().st_size`, but `f` is the loop variable of the directory branch
and is unbound there, so Python raises `NameError` before any check or
copy happens.  On `DiskSpaceExceeded` the handler calls
`delete_new_contents(topath_contents, set(topath.iterdir()))`, a
set-difference of the top-level listings taken before and after. -/

/-- Kind of a filesystem entry met by `frompath.rglob`: a directory, a
regular file, or anything else (the final `else: raise FileNotFoundError`
branch of the loop, utils.py lines 107-108). -/
inductive FsKind where
  | dir
  | file
  | other
  deriving Repr, DecidableEq

/-- One entry yielded by `sorted(frompath.rglob("[!.]*"))`, identified by
its path relative to `frompath`; `size` is `st_size` (meaningful for
files). -/
structure SrcEntry where
  rel : List String
  kind : FsKind
  size : Nat
  deriving Repr, DecidableEq

/-- Possible outcomes of a `copy_remote` call. `nameError` models the
unbound variable `f` at utils.py line 112. -/
inductive CopyOutcome where
  | ok
  | diskSpaceExceeded
  | fileNotFound
  | osError
  | nameError
  deriving Repr, DecidableEq

/-- Directory branch of `copy_remote` (utils.py lines 87-108): walk the
sorted entries keeping the measured disk usage and the list of paths
written into `topath` so far.  A directory is `mkdir`-ed (recorded as
written); a file is copied only after the prospective check
`get_disk_usage() + file_size >= limit_bytes`, which raises
`DiskSpaceExceeded` when it trips; any other kind raises
`FileNotFoundError`.  Copying a file adds its size to the usage measured
by `get_disk_usage`. -/
def copyDirLoop (limitBytes : Nat) :
    List SrcEntry → Nat → List (List String) →
    CopyOutcome × Nat × List (List String)
  | [], usage, written => (CopyOutcome.ok, usage, written)
  | e :: rest, usage, written =>
    match e.kind with
    | FsKind.dir => copyDirLoop limitBytes rest usage (written ++ [e.rel])
    | FsKind.file =>
      if limitBytes ≤ usage + e.size then
        (CopyOutcome.diskSpaceExceeded, usage, written)
      else
        copyDirLoop limitBytes rest (usage + e.size) (written ++ [e.rel])
    | FsKind.other => (CopyOutcome.fileNotFound, usage, written)

/-- Top-level names of a directory tree: the first components of the
relative paths that exist under it.  This is what `set(topath.iterdir())`
observes (a non-recursive listing). -/
def iterdirHeads (contents : List (List String)) : Finset String :=
  (contents.filterMap List.head?).toFinset

/-- Embedding of `delete_new_contents(original_contents, current_contents)`
(utils.py lines 139-154): the new top-level entries are
`current - original` of the `iterdir` listings, and each of them is
removed recursively (`shutil.rmtree` for directories, `unlink` for
files); every path whose first component is a new top-level name
disappears. -/
def delete_new_contents (orig cur : List (List String)) :
    List (List String) :=
  let newTop := iterdirHeads cur \ iterdirHeads orig
  cur.filter fun p =>
    match p.head? with
    | some h => decide (h ∉ newTop)
    | none => true

/-- Source argument of `copy_remote`: a directory with its recursive
entry list, a single file of a given size, or neither (final `else:
raise OSError`, utils.py lines 119-120). -/
inductive CopySrc where
  | dir (entries : List SrcEntry)
  | file (size : Nat)
  | other
  deriving Repr, DecidableEq

/-- Result of a `copy_remote` call: the outcome and the contents of the
destination tree after the call (including the `DiskSpaceExceeded`
cleanup when it runs). -/
structure CopyRemoteResult where
  outcome : CopyOutcome
  contents : List (List String)
  deriving Repr, DecidableEq

/-- Embedding of `copy_remote(frompath, topath)` (utils.py lines 63-136).
`origContents` is the recursive contents of `topath` at the start of the
call (its top-level names are what line 79 snapshots as
`topath_contents`); `usage0` is `get_disk_usage()` at the start.  In the
directory branch the loop either completes or stops with an error; only
`DiskSpaceExceeded` triggers the `delete_new_contents` cleanup (lines
127-134), while `OSError` and `FileNotFoundError` are logged and
re-raised with the partial copy left in place (lines 122-125).  In the
single-file branch (lines 110-117) the reference to the unbound loop
variable `f` at line 112 raises `NameError` before anything is checked
or written. -/
def copy_remote (limitBytes : Nat) (src : CopySrc)
    (origContents : List (List String)) (usage0 : Nat) : CopyRemoteResult :=
  match src with
  | CopySrc.dir entries =>
    match copyDirLoop limitBytes entries usage0 [] with
    | (CopyOutcome.ok, _, written) =>
      ⟨CopyOutcome.ok, origContents ++ written⟩
    | (CopyOutcome.diskSpaceExceeded, _, written) =>
      ⟨CopyOutcome.diskSpaceExceeded,
        delete_new_contents origContents (origContents ++ written)⟩
    | (o, _, written) => ⟨o, origContents ++ written⟩
  | CopySrc.file _ => ⟨CopyOutcome.nameError, origContents⟩
  | CopySrc.other => ⟨CopyOutcome.osError, origContents⟩

/-! ## Subprocess helpers: run_bash_subprocess (tufsegm_api/utils.py),
ls_remote_dirs and the rclone copy_remote (api/utils.py)

Each helper launches exactly one subprocess and reacts to its outcome;
there is no retry loop anywhere.  The outcome of the single launch is
abstracted as a `ProcEnd` (return code or timeout expiry), and the
embedded function records whether `terminate()`/`kill()` was called on
the process together with the value returned or the exception raised. -/

/-- Observable end of the single subprocess launched by a helper: it
either completed with a return code before the timeout, or the timeout
expired (`subprocess.TimeoutExpired`). -/
inductive ProcEnd where
  | completed (returnCode : Int)
  | timedOut
  deriving Repr, DecidableEq

/-- What a subprocess helper did: whether the process was forcefully
stopped (`process.terminate()` or `process.kill()`), and the value the
helper returned or the exception it raised. -/
structure ProcResult (α : Type) where
  killed : Bool
  value : Except PyExc α

/-- Whether an embedded Python computation ended in a raised exception. -/
def raisesExc {α : Type} : Except PyExc α → Bool
  | Except.error _ => true
  | Except.ok _ => false

/-- Embedding of `run_bash_subprocess(cmd, timeout)` (tufsegm_api/utils.py
lines 251-286).  Return code 0 succeeds; a nonzero return code leads to
`terminate()` and `SubprocessError`; `TimeoutExpired` leads to
`terminate()` and `SubprocessError`.  (The GPU check only rescales the
timeout, which is part of the abstracted `ProcEnd`.) -/
def run_bash_subprocess (outcome : ProcEnd) : ProcResult Unit :=
  match outcome with
  | ProcEnd.completed rc =>
    if rc = 0 then ⟨false, Except.ok ()⟩
    else ⟨true, Except.error PyExc.subprocessError⟩
  | ProcEnd.timedOut => ⟨true, Except.error PyExc.subprocessError⟩

/-- String form of `Path(f).parent` for a slash-separated path: drop the
last component; the parent of a single component is `.` (or `/` for an
absolute path with one component). -/
def parentStr (f : String) : String :=
  let comps := (f.splitOn "/").filter (fun c => c ≠ "")
  let isAbs := f.startsWith "/"
  if comps.length ≤ 1 then (if isAbs then "/" else ".")
  else (if isAbs then "/" else "") ++
    String.intercalate "/" comps.dropLast

/-- Python `exclude in f` substring test, via `splitOn`: a pattern occurs
in `f` exactly when splitting on it yields more than one piece. -/
def strHasSubstr (f pat : String) : Bool :=
  (f.splitOn pat).length != 1

/-- The directory list built by `ls_remote_dirs` from the stdout lines of
`rclone lsf` (api/utils.py lines 75-83): keep lines ending in `suffix`
(and, when given, not containing `exclude`), map each to
`frompath + str(Path(f).parent).rstrip("/")`, and deduplicate
(`list(set(...))`, embedded as `eraseDups` since the set order is not
observable to any caller). -/
def lsDirscan (frompath suffix : String) (exclude : Option String)
    (files : List String) : List String :=
  let keep := files.filter fun f =>
    f.endsWith suffix &&
      (match exclude with
       | some pat => !(strHasSubstr f pat)
       | none => true)
  (keep.map fun f =>
    frompath ++ (parentStr f).dropRightWhile (fun c => c = '/')).eraseDups

/-- Outcome of the single `rclone lsf` subprocess in `ls_remote_dirs`:
completion with its stdout lines, timeout, or another exception from
`communicate` (the broad `except Exception` branch). -/
inductive LsEnd where
  | completed (lines : List String)
  | timedOut
  | otherExc
  deriving Repr, DecidableEq

/-- Embedding of `ls_remote_dirs(suffix, exclude, timeout)`
(api/utils.py lines 51-93).  On completion the processed directory list
is returned; on `TimeoutExpired` (and on any other exception) the
process is killed and the function RETURNS `[]` normally, raising
nothing. -/
def ls_remote_dirs (frompath suffix : String) (exclude : Option String)
    (outcome : LsEnd) : ProcResult (List String) :=
  match outcome with
  | LsEnd.completed lines =>
    ⟨false, Except.ok (lsDirscan frompath suffix exclude lines)⟩
  | LsEnd.timedOut => ⟨true, Except.ok []⟩
  | LsEnd.otherExc => ⟨true, Except.ok []⟩

/-- Outcome of the single `rclone copy` subprocess in the api-layer
`copy_remote`: completion with captured stdout/stderr, or timeout /
other exception, after which `communicate()` is called again on the
killed process and yields whatever output remains. -/
inductive RcloneEnd where
  | completed (outs errs : String)
  | timedOut (outs errs : String)
  | otherExc (outs errs : String)
  deriving Repr, DecidableEq

/-- Embedding of the api-layer `copy_remote(frompath, topath, timeout)`
(api/utils.py lines 96-125).  In every case the function returns the
`(outs, errs)` pair normally; on `TimeoutExpired` (and on any other
exception) the process is killed, a message is printed, and the captured
output is still returned with no exception raised. -/
def api_copy_remote (outcome : RcloneEnd) : ProcResult (String × String) :=
  match outcome with
  | RcloneEnd.completed outs errs => ⟨false, Except.ok (outs, errs)⟩
  | RcloneEnd.timedOut outs errs => ⟨true, Except.ok (outs, errs)⟩
  | RcloneEnd.otherExc outs errs => ⟨true, Except.ok (outs, errs)⟩

/-! ## Endpoint functions (api/__init__.py)

The three endpoints wrap calls into the external model package.  The body
of each call is abstracted by its outcome (`Except PyExc α`); the
embedding captures only the exception-routing structure of each
endpoint, translated from the try/except blocks of the source. -/

/-- Embedding of `get_metadata()` (api/__init__.py lines 25-51): the body
collects metadata; `except Exception as err` re-raises it as
`HTTPException(reason=err)`. -/
def get_metadata {α : Type} (body : Except PyExc α) : Except PyExc α :=
  match body with
  | Except.ok m => Except.ok m
  | Except.error e => Except.error (PyExc.httpException e)

/-- The two model-selection request fields of `predict`.  Each field is
declared `required=False` with no default in `PredArgsSchema`, so a field
the client does not send is absent from the `options` dict; `none` models
absence. -/
structure PredOptions where
  model_folder : Option String
  model_folder_new : Option String
  deriving Repr, DecidableEq

/-- Embedding of the `predict` endpoint (api/__init__.py lines 54-97).
Inside the outer try: both fields present raises `ValueError`, neither
present raises `ValueError`; then `options[ (quote) model_folder ]` is
read inside a `try ... except TypeError` block, so when the key is
absent the lookup raises `KeyError`, which the `except TypeError` clause
does not catch; only when `model_folder` is present does the body reach
the model call.  The outer `except Exception` clause logs and bare
re-raises (the `raise HTTPException(reason=err)` line 96 is commented
out in the source), so every exception escapes unchanged. -/
def predict_endpoint {α : Type} (opts : PredOptions)
    (aimodel_predict : String → Except PyExc α) : Except PyExc α :=
  match opts.model_folder, opts.model_folder_new with
  | some _, some _ => Except.error PyExc.valueError
  | none, none => Except.error PyExc.valueError
  | some name, none => aimodel_predict name
  | none, some _ => Except.error (PyExc.keyError "model_folder")

/-- Embedding of the `train` endpoint (api/__init__.py lines 100-131):
the body calls `aimodel.train(**options)` inside `try`; `except
Exception` logs and bare re-raises, so every exception escapes
unchanged. -/
def train_endpoint {α : Type} (aimodel_train : Except PyExc α) :
    Except PyExc α :=
  match aimodel_train with
  | Except.ok r => Except.ok r
  | Except.error e => Except.error e

/-- The claim predicate for endpoint error handling: every exception the
computation ends with is an `HTTPException` wrapper. -/
def errorsAreHttpWrapped {α : Type} (r : Except PyExc α) : Prop :=
  ∀ e : PyExc, r = Except.error e → ∃ c : PyExc, e = PyExc.httpException c

instance {α : Type} (r : Except PyExc α) :
    Decidable (errorsAreHttpWrapped r) :=
  match r with
  | Except.ok _ =>
    Decidable.isTrue (by intro e h; exact absurd h (by simp))
  | Except.error (PyExc.httpException c) =>
    Decidable.isTrue (by
      intro e h
      exact ⟨c, by injection h with h2; exact h2.symm⟩)
  | Except.error PyExc.valueError =>
    Decidable.isFalse (by
      intro h
      rcases h PyExc.valueError rfl with ⟨c, hc⟩
      exact PyExc.noConfusion hc)
  | Except.error (PyExc.keyError k) =>
    Decidable.isFalse (by
      intro h
      rcases h (PyExc.keyError k) rfl with ⟨c, hc⟩
      exact PyExc.noConfusion hc)
  | Except.error (PyExc.typeError m) =>
    Decidable.isFalse (by
      intro h
      rcases h (PyExc.typeError m) rfl with ⟨c, hc⟩
      exact PyExc.noConfusion hc)
  | Except.error (PyExc.nameError n) =>
    Decidable.isFalse (by
      intro h
      rcases h (PyExc.nameError n) rfl with ⟨c, hc⟩
      exact PyExc.noConfusion hc)
  | Except.error PyExc.osError =>
    Decidable.isFalse (by
      intro h
      rcases h PyExc.osError rfl with ⟨c, hc⟩
      exact PyExc.noConfusion hc)
  | Except.error PyExc.fileNotFoundError =>
    Decidable.isFalse (by
      intro h
      rcases h PyExc.fileNotFoundError rfl with ⟨c, hc⟩
      exact PyExc.noConfusion hc)
  | Except.error PyExc.diskSpaceExceeded =>
    Decidable.isFalse (by
      intro h
      rcases h PyExc.diskSpaceExceeded rfl with ⟨c, hc⟩
      exact PyExc.noConfusion hc)
  | Except.error PyExc.subprocessError =>
    Decidable.isFalse (by
      intro h
      rcases h PyExc.subprocessError rfl with ⟨c, hc⟩
      exact PyExc.noConfusion hc)

/-! ## check_available_space (tufsegm_api/utils.py lines 375-425)

Python float arithmetic and `round(x, 2)` are embedded as exact rational
arithmetic with rounding to two decimal places; the claim under scrutiny
concerns the arithmetic structure, not float representation. -/

/-- Rounding to two decimal places, modelling Python `round(x, 2)` on the
rationals. -/
def round2 (x : ℚ) : ℚ := (round (x * 100) : ℤ) / 100

/-- Embedding of `check_available_space(proj_lim_option)`.  Inputs:
`limit_gb` is the configured project limit in GB; `usedBytes` is
`get_disk_usage(PATH)`; `nodeReading` is the GB figure parsed from
`df -h`, or `none` when parsing raises `ValueError` (in which case the
code falls back to the configured limit).  With a safety margin of 2 GB:
if the node reading is at or below the margin, `DiskSpaceExceeded` is
raised; otherwise the remaining project space `limit - used` (rounded)
is replaced by `node - 2` whenever `node - 2 <= ` that remainder, and
`used + remainder` is returned. -/
def check_available_space (limit_gb : ℚ) (usedBytes : Nat)
    (nodeReading : Option ℚ) : Except PyExc ℚ :=
  let project_used_gb := round2 ((usedBytes : ℚ) / 2 ^ 30)
  let project_available_gb := round2 (limit_gb - project_used_gb)
  let node_available_gb := nodeReading.getD limit_gb
  if node_available_gb ≤ 2 then Except.error PyExc.diskSpaceExceeded
  else
    let pa :=
      if node_available_gb - 2 ≤ project_available_gb then
        node_available_gb - 2
      else project_available_gb
    Except.ok (project_used_gb + pa)

/-! ## monitor_disk_space and setup (tufsegm_api/utils.py)

`monitor_disk_space(limit_gb)` runs as the target of a daemon thread: a
`while True` loop that sleeps five seconds, reads `get_disk_usage()`,
raises `DiskSpaceExceeded` when the reading reaches the limit and
otherwise logs and loops.  The loop has no `break` or `return`, so the
function can never return normally.  The successive usage readings are
abstracted as a function from the poll index to bytes, and the
embedding computes the thread status after a given number of polls. -/

/-- Status of the monitor thread function after some polls: still
looping, terminated by `DiskSpaceExceeded`, or returned normally (which
the code structure never produces, since the `while True` body has no
exit path). -/
inductive MonitorStatus where
  | polling
  | raised
  | returned
  deriving Repr, DecidableEq

/-- Embedding of `monitor_disk_space(limit_gb)` (utils.py lines 341-372)
after `n` polls of the readings stream: poll `k` compares the byte
reading `readings k` with `limit_bytes = limit_gb * 1024 ^ 3` (the GB
limit is the rational produced by `check_available_space`) and raises
exactly when the reading is at or above it; a raise is final. -/
def monitor_disk_space (limit_gb : ℚ) (readings : Nat → Nat) :
    Nat → MonitorStatus
  | 0 => MonitorStatus.polling
  | n + 1 =>
    match monitor_disk_space limit_gb readings n with
    | MonitorStatus.polling =>
      if limit_gb * 1024 ^ 3 ≤ (readings n : ℚ) then MonitorStatus.raised
      else MonitorStatus.polling
    | s => s

/-- Embedding of `setup(data_path, test_size, save_for_view)` (utils.py
lines 194-248).  `spaceCheck` is the result of the
`check_available_space` call at line 210 (before the try block, so its
exception propagates unwrapped); `monitorReadings` is the usage stream
seen by the daemonized monitor thread started at lines 214-216 (the
thread is never joined and a `DiskSpaceExceeded` raised inside it stays
inside it, per Python thread semantics, so the foreground flow below
does not consult the stream); `scriptExists` is whether
`submodule/scripts/setup/setup.sh` exists; `procEnd` is the outcome of
the `run_bash_subprocess` call; `finalListing` is
`os.listdir(data_path)` after the subprocess.  The
`except DiskSpaceExceeded` clause (lines 235-240) re-raises a
`DiskSpaceExceeded`; `FileNotFoundError` and `SubprocessError` pass it
by.  Finally the required entries are checked with a set-superset
test. -/
def setup (spaceCheck : Except PyExc ℚ)
    (monitorReadings : Nat → Nat) (scriptExists : Bool)
    (procEnd : ProcEnd) (finalListing : List String) :
    Except PyExc Unit :=
  match spaceCheck with
  | Except.error e => Except.error e
  | Except.ok limit_gb =>
    let _monitorThread := monitor_disk_space limit_gb monitorReadings
    if !scriptExists then Except.error PyExc.fileNotFoundError
    else
      match (run_bash_subprocess procEnd).value with
      | Except.error PyExc.diskSpaceExceeded =>
        Except.error PyExc.diskSpaceExceeded
      | Except.error e => Except.error e
      | Except.ok () =>
        if ["masks", "train.txt", "test.txt"].all
            (fun s => finalListing.contains s) then
          Except.ok ()
        else Except.error PyExc.fileNotFoundError

/-! ## train result parsing (tufsegm_api/__init__.py lines 158-176)

After the training subprocess returns, `train` looks at
`sorted(api_cfg.MODELS_PATH.glob("[!.]*"))[-1]`: the last entry of the
name-sorted listing of model folders.  Folder names are timestamps in
the format `%Y-%m-%d_%H-%M-%S`, for which name order is time order, so
the embedding takes the listing already sorted and carries each folder
as its parsed timestamp (in seconds) together with the contents of its
`eval.json` when that file exists. -/

/-- One model output folder: its name parsed as a timestamp (seconds),
and the parsed contents of `eval.json` when present. -/
structure ModelDir where
  time : Int
  evalJson : Option String
  deriving Repr, DecidableEq

/-- The four shapes of the value `train` returns from its result-parsing
section: the parsed `eval.json` contents, or one of the three
error-describing dictionaries (eval file missing, newest folder too old,
no folders at all / `IndexError`). -/
inductive TrainParseResult where
  | evalContents (s : String)
  | noScores
  | noRecentFolder
  | noFolders
  deriving Repr, DecidableEq

/-- Embedding of the result-parsing section of `train`
(tufsegm_api/__init__.py lines 158-176).  `current_time` is the
`datetime.now()` captured before the training subprocess started (line
152), in seconds; `dirs` is the name-sorted model folder listing.  The
newest folder is the last one; an empty listing raises `IndexError`,
caught and turned into the no-folders dictionary.  The timestamp test is
`current_time - model_time <= timedelta(minutes=1)` - one-sided, so any
folder whose timestamp is no more than sixty seconds before
`current_time` (including folders timestamped after it) passes. -/
def train_result (current_time : Int) (dirs : List ModelDir) :
    TrainParseResult :=
  match dirs.getLast? with
  | none => TrainParseResult.noFolders
  | some d =>
    if current_time - d.time ≤ 60 then
      match d.evalJson with
      | some s => TrainParseResult.evalContents s
      | none => TrainParseResult.noScores
    else TrainParseResult.noRecentFolder

/-! ## The unzip loop of train (tufsegm_api/__init__.py lines 119-125)

`train` collects `zip_paths = list(data_path.rglob("*.zip"))` and runs
`for zip_path in zip_paths: unzip(zip_file=zip_path); ...;
zip_path.unlink()`.  The helper it calls is declared
`def unzip(zip_paths: list)` (tufsegm_api/utils.py line 157): it accepts
no keyword argument named `zip_file`, so the very first iteration raises
`TypeError` at the call site, before any extraction; the body of `unzip`
never runs from this call site. -/

/-- Embedding of the unzip loop of `train`: on an empty zip list the loop
body never runs; on a non-empty list the first call
`unzip(zip_file=zip_path)` raises `TypeError` because the signature of
`unzip` has the parameter `zip_paths`, not `zip_file`. -/
def train_unzip_loop (zip_paths : List (List String)) :
    Except PyExc Unit :=
  match zip_paths with
  | [] => Except.ok ()
  | _ :: _ =>
    Except.error
      (PyExc.typeError "unzip got an unexpected keyword argument zip_file")

/-! ## Claim theorems -/

/-- C1: the claim states that before every copy unit, in particular when
the source of `copy_remote` is a single file, the prospective usage is
checked against the budget and `DiskSpaceExceeded` is raised when the
budget would be met or exceeded.  The code violates this in the
single-file branch: at utils.py line 112 the size is read from the
unbound name `f`, so the call raises `NameError` before any check, even
when the budget would be exceeded - while the same input sizes in the
directory branch do trip the `DiskSpaceExceeded` check. -/
theorem copy_remote_single_file_raises_name_error :
    (copy_remote 50 (CopySrc.file 100) [] 0).outcome = CopyOutcome.nameError ∧
    50 ≤ 0 + 100 ∧
    (copy_remote 50 (CopySrc.file 100) [] 0).outcome ≠
      CopyOutcome.diskSpaceExceeded ∧
    (copy_remote 50
        (CopySrc.dir [⟨["b"], FsKind.file, 100⟩]) [] 0).outcome =
      CopyOutcome.diskSpaceExceeded := by
  refine ⟨rfl, by norm_num, by decide, rfl⟩

/-- C8: the predict endpoint raises `ValueError` when both model fields
are present and when neither is; with only `model_folder` it proceeds
with that value.  But with only `model_folder_new` the lookup
`options[model_folder]` raises `KeyError`, which the `except TypeError`
clause does not catch, so the endpoint never reaches the
`model_folder_new` fallback the source comments describe. -/
theorem predict_model_folder_new_key_error :
    predict_endpoint ⟨none, some "2023-09-21_11-42-18"⟩
        (fun name => Except.ok name) =
      Except.error (PyExc.keyError "model_folder") ∧
    predict_endpoint ⟨some "m1", some "m2"⟩ (fun name => Except.ok name) =
      Except.error PyExc.valueError ∧
    predict_endpoint ⟨none, none⟩ (fun name => Except.ok name) =
      Except.error PyExc.valueError ∧
    predict_endpoint ⟨some "m1", none⟩ (fun name => Except.ok name) =
      Except.ok "m1" :=
  ⟨rfl, rfl, rfl, rfl⟩

/-- C10: the claim states that each `.zip` archive in the dataset folder
is extracted via the quota-guarded `unzip` helper and then deleted.  The
code calls `unzip(zip_file=zip_path)` (tufsegm_api/__init__.py line 122)
against the signature `unzip(zip_paths: list)` (utils.py line 157), so
as soon as the dataset folder contains one archive the loop raises
`TypeError` and nothing is extracted or deleted. -/
theorem train_unzip_call_type_error :
    train_unzip_loop [["data.zip"]] =
      Except.error
        (PyExc.typeError
          "unzip got an unexpected keyword argument zip_file") ∧
    train_unzip_loop [["data.zip"]] ≠ Except.ok () ∧
    train_unzip_loop [] = Except.ok () :=
  ⟨rfl, by simp [train_unzip_loop], rfl⟩

/-- C3 counterexample: the claim states that for all three subprocess
launchers an expired timeout surfaces to the caller as an error.  In
`ls_remote_dirs` the `TimeoutExpired` handler kills the process and
RETURNS the empty list normally, and in the api-layer `copy_remote` the
handler kills the process and returns the captured output normally, so
at these concrete timed-out calls no error reaches the caller. -/
theorem ls_remote_dirs_timeout_no_error_counterexample :
    (ls_remote_dirs "rshare:tufsegm" ".zip" (some "additional_data")
        LsEnd.timedOut).value = Except.ok [] ∧
    raisesExc (ls_remote_dirs "rshare:tufsegm" ".zip"
        (some "additional_data") LsEnd.timedOut).value = false ∧
    raisesExc (api_copy_remote (RcloneEnd.timedOut "" "")).value = false :=
  ⟨rfl, rfl, rfl⟩

/-- C3 amended: when the configured timeout expires, each of the three
launchers stops its subprocess (`terminate()` or `kill()`) and none
retries, but only `run_bash_subprocess` surfaces the timeout as an error
(`SubprocessError`); `ls_remote_dirs` returns the empty list and the
api-layer `copy_remote` returns the captured output, both normally. -/
theorem timeout_terminates_subprocess (frompath suffix : String)
    (exclude : Option String) (outs errs : String) :
    (run_bash_subprocess ProcEnd.timedOut).killed = true ∧
    (run_bash_subprocess ProcEnd.timedOut).value =
      Except.error PyExc.subprocessError ∧
    (ls_remote_dirs frompath suffix exclude LsEnd.timedOut).killed = true ∧
    (ls_remote_dirs frompath suffix exclude LsEnd.timedOut).value =
      Except.ok [] ∧
    (api_copy_remote (RcloneEnd.timedOut outs errs)).killed = true ∧
    (api_copy_remote (RcloneEnd.timedOut outs errs)).value =
      Except.ok (outs, errs) :=
  ⟨rfl, rfl, rfl, rfl, rfl, rfl⟩

/-- C4 counterexample: the claim states that every exception raised while
executing the three endpoints is re-raised as an aiohttp HTTPException.
At these concrete inputs the `train` endpoint lets a `SubprocessError`
escape unchanged and the `predict` endpoint lets a `DiskSpaceExceeded`
escape unchanged (its HTTPException wrap at api/__init__.py line 96 is
commented out), so the claim is false. -/
theorem endpoint_not_http_wrapped_counterexample :
    ¬ errorsAreHttpWrapped
        (train_endpoint (α := Unit) (Except.error PyExc.subprocessError)) ∧
    ¬ errorsAreHttpWrapped
        (predict_endpoint (α := Unit) ⟨some "m1", none⟩
          (fun _ => Except.error PyExc.diskSpaceExceeded)) := by
  exact ⟨by decide, by decide⟩

/-- C4 amended: only `get_metadata` catches exceptions and re-raises them
as `HTTPException`; the `predict` and `train` endpoints log and re-raise
the original exception unchanged (`train` is the identity on its body
outcome, and `predict` produces an HTTP-wrapped error only when the
model call itself already raised one). -/
theorem endpoint_error_wrapping {α : Type} (body : Except PyExc α)
    (opts : PredOptions) (f : String → Except PyExc α) (e : PyExc) :
    errorsAreHttpWrapped (get_metadata body) ∧
    train_endpoint body = body ∧
    (predict_endpoint opts f = Except.error (PyExc.httpException e) →
      ∃ name, opts.model_folder = some name ∧
        f name = Except.error (PyExc.httpException e)) := by
  refine ⟨?_, ?_, ?_⟩
  · cases body with
    | ok m => intro x hx; exact absurd hx (by simp [get_metadata])
    | error err =>
      intro x hx
      refine ⟨err, ?_⟩
      simp only [get_metadata] at hx
      injection hx with hx2
      exact hx2.symm
  · cases body <;> rfl
  · intro h
    rcases hmf : opts.model_folder with _ | name <;>
      rcases hmfn : opts.model_folder_new with _ | new
    · simp [predict_endpoint, hmf, hmfn] at h
    · simp [predict_endpoint, hmf, hmfn] at h
    · exact ⟨name, rfl, by simpa [predict_endpoint, hmf, hmfn] using h⟩
    · simp [predict_endpoint, hmf, hmfn] at h

/-- C4 witness: the amended theorem applied at concrete inputs: a
metadata body failing with `OSError` is surfaced as an HTTPException, a
train body failing with `SubprocessError` escapes unchanged, and a
predict call whose model call raised an HTTP-wrapped `ValueError` traces
it back to the model call on `m1`. -/
theorem endpoint_error_wrapping_witness :
    errorsAreHttpWrapped
      (get_metadata (α := Unit) (Except.error PyExc.osError)) ∧
    train_endpoint (α := Unit) (Except.error PyExc.subprocessError) =
      Except.error PyExc.subprocessError ∧
    (∃ name, (PredOptions.mk (some "m1") none).model_folder = some name ∧
      (fun _ : String =>
        Except.error (α := Unit) (PyExc.httpException PyExc.valueError))
          name =
        Except.error (PyExc.httpException PyExc.valueError)) := by
  obtain ⟨h1, h2, h3⟩ :=
    endpoint_error_wrapping (α := Unit) (Except.error PyExc.subprocessError)
      ⟨some "m1", none⟩
      (fun _ => Except.error (PyExc.httpException PyExc.valueError))
      PyExc.valueError
  exact ⟨by decide, h2, h3 rfl⟩

/-- C2 counterexample: the claim states that on a `DiskSpaceExceeded`
overflow every file and folder written since the operation began is
deleted, so the destination contents equal the contents at the start.
At this concrete input the destination already holds a top-level folder
`a`; the copy writes the file `a/x` into it and then overflows on `b`;
the set-difference of the top-level listings is empty, so `a/x` survives
the cleanup and the destination differs from its starting contents. -/
theorem copy_remote_cleanup_incomplete_counterexample :
    (copy_remote 50
        (CopySrc.dir [⟨["a"], FsKind.dir, 0⟩, ⟨["a", "x"], FsKind.file, 5⟩,
          ⟨["b"], FsKind.file, 100⟩]) [["a"]] 0).outcome =
      CopyOutcome.diskSpaceExceeded ∧
    ["a", "x"] ∈
      (copy_remote 50
        (CopySrc.dir [⟨["a"], FsKind.dir, 0⟩, ⟨["a", "x"], FsKind.file, 5⟩,
          ⟨["b"], FsKind.file, 100⟩]) [["a"]] 0).contents ∧
    ["a", "x"] ∉ ([["a"]] : List (List String)) ∧
    (copy_remote 50
        (CopySrc.dir [⟨["a"], FsKind.dir, 0⟩, ⟨["a", "x"], FsKind.file, 5⟩,
          ⟨["b"], FsKind.file, 100⟩]) [["a"]] 0).contents.toFinset ≠
      ([["a"]] : List (List String)).toFinset := by
  refine ⟨by decide, by decide, by decide, by decide⟩

/-- Auxiliary fact for C2: deleting the new top-level entries from a
destination that grew from `orig` to `orig ++ w` restores exactly the
original top-level listing. -/
lemma iterdirHeads_delete_new_contents (orig w : List (List String)) :
    iterdirHeads (delete_new_contents orig (orig ++ w)) =
      iterdirHeads orig := by
  ext h
  simp only [iterdirHeads, delete_new_contents, List.mem_toFinset,
    List.mem_filterMap, List.mem_filter, Finset.mem_sdiff,
    decide_eq_true_eq]
  constructor
  · rintro ⟨p, ⟨hp, hkeep⟩, hhead⟩
    rw [hhead] at hkeep
    simp only [decide_eq_true_eq, not_and, not_not] at hkeep
    exact hkeep ⟨p, hp, hhead⟩
  · rintro ⟨p, hp, hhead⟩
    refine ⟨p, ⟨List.mem_append_left w hp, ?_⟩, hhead⟩
    rw [hhead]
    simp only [decide_eq_true_eq, not_and, not_not]
    intro _
    exact ⟨p, hp, hhead⟩

/-- C2 amended: whenever `DiskSpaceExceeded` interrupts the directory
branch of `copy_remote`, the cleanup deletes exactly the new TOP-LEVEL
entries of the destination (the set-difference of the before/after
`iterdir` listings, removed recursively), so the top-level listing of
the destination is restored to its starting state; files written below
a pre-existing top-level folder are not deleted. -/
theorem copy_remote_overflow_restores_top_level (limitBytes : Nat)
    (entries : List SrcEntry) (orig : List (List String)) (usage0 : Nat)
    (h : (copy_remote limitBytes (CopySrc.dir entries) orig usage0).outcome =
      CopyOutcome.diskSpaceExceeded) :
    iterdirHeads
        (copy_remote limitBytes (CopySrc.dir entries) orig usage0).contents =
      iterdirHeads orig := by
  simp only [copy_remote] at h ⊢
  rcases hloop : copyDirLoop limitBytes entries usage0 [] with ⟨o, u, w⟩
  rw [hloop] at h
  cases o with
  | ok => exact CopyOutcome.noConfusion h
  | diskSpaceExceeded => exact iterdirHeads_delete_new_contents orig w
  | fileNotFound => exact CopyOutcome.noConfusion h
  | osError => exact CopyOutcome.noConfusion h
  | nameError => exact CopyOutcome.noConfusion h

/-- C2 witness: the amended theorem applied to a concrete overflowing
copy, whose destination top-level listing is restored to the single
pre-existing entry. -/
theorem copy_remote_overflow_restores_top_level_witness :
    (copy_remote 50
        (CopySrc.dir [⟨["a"], FsKind.dir, 0⟩, ⟨["a", "x"], FsKind.file, 5⟩,
          ⟨["b"], FsKind.file, 100⟩]) [["a"]] 0).outcome =
      CopyOutcome.diskSpaceExceeded ∧
    iterdirHeads
        (copy_remote 50
          (CopySrc.dir [⟨["a"], FsKind.dir, 0⟩, ⟨["a", "x"], FsKind.file, 5⟩,
            ⟨["b"], FsKind.file, 100⟩]) [["a"]] 0).contents =
      iterdirHeads [["a"]] :=
  ⟨by decide,
    copy_remote_overflow_restores_top_level 50
      [⟨["a"], FsKind.dir, 0⟩, ⟨["a", "x"], FsKind.file, 5⟩,
        ⟨["b"], FsKind.file, 100⟩] [["a"]] 0 (by decide)⟩

/-- C5: `check_available_space` raises `DiskSpaceExceeded` exactly when
the node reading is at or below the 2 GB safety margin, and otherwise
returns used-space plus remaining-project-space, where the remaining
space `round2 (limit - used)` is reduced to `node - 2` whenever the
latter is smaller (at equality the two coincide), i.e. the minimum of
the two quantities. -/
theorem check_available_space_spec (limit_gb : ℚ) (usedBytes : Nat)
    (node : ℚ) :
    (node ≤ 2 →
      check_available_space limit_gb usedBytes (some node) =
        Except.error PyExc.diskSpaceExceeded) ∧
    (2 < node →
      check_available_space limit_gb usedBytes (some node) =
        Except.ok (round2 ((usedBytes : ℚ) / 2 ^ 30) +
          min (round2 (limit_gb - round2 ((usedBytes : ℚ) / 2 ^ 30)))
            (node - 2))) := by
  constructor
  · intro h
    rw [check_available_space]
    simp only [Option.getD_some]
    rw [if_pos h]
  · intro h
    rw [check_available_space]
    simp only [Option.getD_some]
    rw [if_neg (not_le.mpr h)]
    by_cases h3 :
      node - 2 ≤ round2 (limit_gb - round2 ((usedBytes : ℚ) / 2 ^ 30))
    · rw [if_pos h3, min_eq_right h3]
    · rw [if_neg h3, min_eq_left (le_of_not_le h3)]

/-- C5 witness: with a 10 GB configured limit, exactly one GB already
used and a 5 GB node reading, the node reading is above the safety
margin and the returned absolute limit is 1 + min 9 3 = 4 GB. -/
theorem check_available_space_spec_witness :
    2 < (5 : ℚ) ∧
    check_available_space 10 (2 ^ 30) (some 5) = Except.ok 4 := by
  have h := (check_available_space_spec 10 (2 ^ 30) 5).2 (by norm_num)
  refine ⟨by norm_num, ?_⟩
  rw [h]
  norm_num [round2, round_eq]

/-- Auxiliary fact for C6: the monitor loop never reaches a normal
return; after any number of polls its status is polling or raised. -/
lemma monitor_disk_space_ne_returned (limit_gb : ℚ) (readings : Nat → Nat) :
    ∀ n, monitor_disk_space limit_gb readings n ≠ MonitorStatus.returned := by
  intro n
  induction n with
  | zero => simp [monitor_disk_space]
  | succ n ih =>
    rw [monitor_disk_space]
    cases hs : monitor_disk_space limit_gb readings n with
    | polling =>
      simp only []
      split <;> simp
    | raised => simp
    | returned => exact absurd hs ih

/-- Auxiliary fact for C6: the monitor has raised after `n` polls exactly
when some reading among the first `n` is at or above the byte limit. -/
lemma monitor_disk_space_raised_iff (limit_gb : ℚ) (readings : Nat → Nat) :
    ∀ n, (monitor_disk_space limit_gb readings n = MonitorStatus.raised ↔
      ∃ k, k < n ∧ limit_gb * 1024 ^ 3 ≤ (readings k : ℚ)) := by
  intro n
  induction n with
  | zero => simp [monitor_disk_space]
  | succ n ih =>
    rw [monitor_disk_space]
    cases hs : monitor_disk_space limit_gb readings n with
    | polling =>
      have hnot : ¬ ∃ k, k < n ∧ limit_gb * 1024 ^ 3 ≤ (readings k : ℚ) := by
        rw [← ih, hs]
        simp
      simp only []
      split
      case isTrue hc =>
        exact iff_of_true rfl ⟨n, Nat.lt_succ_self n, hc⟩
      case isFalse hc =>
        apply iff_of_false (by simp)
        rintro ⟨k, hk, hge⟩
        rcases Nat.lt_succ_iff_lt_or_eq.mp hk with h1 | h1
        · exact hnot ⟨k, h1, hge⟩
        · exact hc (h1 ▸ hge)
    | raised =>
      obtain ⟨k, hk, hge⟩ := ih.mp hs
      exact iff_of_true rfl ⟨k, Nat.lt_succ_of_lt hk, hge⟩
    | returned => exact absurd hs (monitor_disk_space_ne_returned _ _ n)

/-- C6: the background monitor never returns normally (after any number
of polls it is still polling or has raised), it raises exactly when some
poll reads usage at or above the byte limit, and the exception stays in
the daemon thread: the result of `setup` does not depend on the usage
stream the monitor observes. -/
theorem monitor_disk_space_spec (limit_gb : ℚ)
    (readings readings2 : Nat → Nat) (n : Nat)
    (spaceCheck : Except PyExc ℚ) (scriptExists : Bool)
    (procEnd : ProcEnd) (finalListing : List String) :
    monitor_disk_space limit_gb readings n ≠ MonitorStatus.returned ∧
    (monitor_disk_space limit_gb readings n = MonitorStatus.raised ↔
      ∃ k, k < n ∧ limit_gb * 1024 ^ 3 ≤ (readings k : ℚ)) ∧
    setup spaceCheck readings scriptExists procEnd finalListing =
      setup spaceCheck readings2 scriptExists procEnd finalListing :=
  ⟨monitor_disk_space_ne_returned limit_gb readings n,
    monitor_disk_space_raised_iff limit_gb readings n,
    by cases spaceCheck <;> rfl⟩

/-- C7 counterexample: the claim reads the one-minute condition as the
directory timestamp being within one minute of the training start.  At
this concrete input the newest model folder is timestamped 1000 seconds
AFTER the training start - not within one minute - yet the code check
`current_time - model_time <= timedelta(minutes=1)` passes and the
parsed eval contents are returned instead of an error dictionary. -/
theorem train_result_future_folder_counterexample :
    train_result 0 [⟨1000, some "evalData"⟩] =
      TrainParseResult.evalContents "evalData" ∧
    ¬ |(0 : Int) - 1000| ≤ 60 :=
  ⟨rfl, by decide⟩

/-- C7 amended: after training, `train` parses `eval.json` from the last
name-sorted model folder provided that folder is at most one minute
OLDER than the training start (`current_time - model_time <= 60`;
folders timestamped later than the start always qualify); otherwise (no
folders, newest folder more than a minute older, or `eval.json`
missing) it returns an error-describing dictionary instead of
raising. -/
theorem train_result_spec (current_time : Int) (dirs : List ModelDir) :
    (dirs.getLast? = none →
      train_result current_time dirs = TrainParseResult.noFolders) ∧
    (∀ d, dirs.getLast? = some d →
      (current_time - d.time ≤ 60 →
        train_result current_time dirs =
          (match d.evalJson with
           | some s => TrainParseResult.evalContents s
           | none => TrainParseResult.noScores)) ∧
      (60 < current_time - d.time →
        train_result current_time dirs = TrainParseResult.noRecentFolder)) := by
  constructor
  · intro h
    rw [train_result, h]
  · intro d hd
    constructor
    · intro hle
      simp only [train_result, hd]
      rw [if_pos hle]
    · intro hgt
      simp only [train_result, hd]
      rw [if_neg (not_le.mpr hgt)]

/-- C7 witness: the amended theorem applied to a concrete listing whose
newest folder is twenty seconds older than the training start and has an
eval file, so its contents are returned. -/
theorem train_result_spec_witness :
    ([⟨100, some "E"⟩] : List ModelDir).getLast? = some ⟨100, some "E"⟩ ∧
    (120 : Int) - 100 ≤ 60 ∧
    train_result 120 [⟨100, some "E"⟩] =
      TrainParseResult.evalContents "E" := by
  refine ⟨rfl, by norm_num, ?_⟩
  exact ((train_result_spec 120 [⟨100, some "E"⟩]).2 ⟨100, some "E"⟩
    rfl).1 (by norm_num)

/-- C9: if `setup` returns normally then the data directory listing
contains `masks`, `train.txt` and `test.txt`; and whenever the setup
subprocess completes successfully but any of these entries is missing,
`setup` raises `FileNotFoundError`. -/
theorem setup_required_entries_spec (spaceCheck : Except PyExc ℚ)
    (readings : Nat → Nat) (scriptExists : Bool) (procEnd : ProcEnd)
    (finalListing : List String) :
    (setup spaceCheck readings scriptExists procEnd finalListing =
        Except.ok () →
      (["masks", "train.txt", "test.txt"].all
        (fun s => finalListing.contains s)) = true) ∧
    (∀ q, spaceCheck = Except.ok q → scriptExists = true →
      procEnd = ProcEnd.completed 0 →
      (["masks", "train.txt", "test.txt"].all
        (fun s => finalListing.contains s)) = false →
      setup spaceCheck readings scriptExists procEnd finalListing =
        Except.error PyExc.fileNotFoundError) := by
  constructor
  · intro h
    cases spaceCheck with
    | error e => simp [setup] at h
    | ok q =>
      cases scriptExists with
      | false => simp [setup] at h
      | true =>
        cases procEnd with
        | timedOut => simp [setup, run_bash_subprocess] at h
        | completed rc =>
          by_cases hrc : rc = 0
          · subst hrc
            simp [setup, run_bash_subprocess] at h
            simpa using h
          · simp [setup, run_bash_subprocess, hrc] at h
  · intro q hq hs hp hall
    subst hq
    subst hs
    subst hp
    simp [setup, run_bash_subprocess]
    simpa using hall

/-- C9 witness: with a successful space check, an existing setup script,
a subprocess that exits with code 0 and a listing holding all three
required entries (plus another), setup returns normally and the
containment check evaluates to true. -/
theorem setup_required_entries_spec_witness :
    setup (Except.ok 10) (fun _ => 0) true (ProcEnd.completed 0)
        ["masks", "train.txt", "test.txt", "images"] = Except.ok () ∧
    (["masks", "train.txt", "test.txt"].all
      (fun s =>
        (["masks", "train.txt", "test.txt", "images"] :
          List String).contains s)) = true := by
  have hok : setup (Except.ok 10) (fun _ => 0) true (ProcEnd.completed 0)
      ["masks", "train.txt", "test.txt", "images"] = Except.ok () := by
    simp [setup, run_bash_subprocess]
  exact ⟨hok,
    (setup_required_entries_spec (Except.ok 10) (fun _ => 0) true
      (ProcEnd.completed 0) ["masks", "train.txt", "test.txt", "images"]).1
      hok⟩

/-- C6 witness: the monitor specification applied at a concrete stream
whose first reading is above a 1 GB limit: after one poll the monitor
has not returned normally. -/
theorem monitor_disk_space_spec_witness :
    monitor_disk_space 1 (fun _ => 2 ^ 30 * 1024) 1 ≠
      MonitorStatus.returned :=
  (monitor_disk_space_spec 1 (fun _ => 2 ^ 30 * 1024) (fun _ => 0) 1
    (Except.ok 1) true (ProcEnd.completed 0) ["masks"]).1
